import Mathlib

/-!
# Verification of `LesnyDungeon/setup_game.py`

A shallow embedding of the session-bootstrap layer of the dungeon crawler:
the name generator (`load_json`, `get_random_combination`), the session
factory (`new_game`), the session loader (`load_game`) and the main-menu
handler (`MainMenu.on_render`, `MainMenu.ev_keydown`).

External effects are made explicit:
  * the file system and the stdlib codecs (`json`, `lzma`, `pickle`) are an
    environment `SysEnv`; file reads are indexed by a read clock so that two
    reads of the same path may observe different contents, as on a real
    file system;
  * Python's global `random` state is an oracle of natural numbers, one per
    `random.choice` call; `choice` picks index `r % len`, so every element
    is reachable and no distribution is asserted;
  * Python object identity is a heap `Heap` mapping addresses to entity
    data; `copy.deepcopy` allocates a fresh address;
  * raised exceptions are `Except PyErr`;
  * calls into unseen collaborators (`GameWorld`, `Engine`, the message
    log, the render console) are recorded in an event trace.

Collaborator modules (`engine`, `game_map`, `input_handlers`,
`entity_factories`, `color`) are part of the repository but their sources
are not available here; their small surface used by this file is modelled
from the spec and marked as such.
-/

namespace LesnyDungeon

/-- Python exceptions that the visible code can raise or observe. -/
inductive PyErr where
  | fileNotFound (path : String)
  | jsonDecodeError
  | keyError (key : String)
  | indexError
  | typeError
  | lzmaError
  | unpickleError
  | assertionError
deriving DecidableEq, Repr

/-- A minimal JSON value, the codomain of `json.load`. -/
inductive Json where
  | null
  | bool (b : Bool)
  | num (n : Int)
  | str (s : String)
  | arr (elems : List Json)
  | obj (fields : List (String × Json))

/-- `str(v)` on the values `random.choice` can return here.  Containers are
rendered in an abbreviated form: the claims only ever format scalars. -/
def pyStr : Json → String
  | .null => "None"
  | .bool true => "True"
  | .bool false => "False"
  | .num n => toString n
  | .str s => s
  | .arr elems => "[" ++ String.intercalate ", " (elems.map fun _ => "...") ++ "]"
  | .obj _ => "\x7b...\x7d"

/-- `d[k]` on a JSON value: a key lookup on an object (Python `dict`),
`KeyError` when the key is absent, `TypeError` on a non-subscriptable
value. -/
def getItem (d : Json) (k : String) : Except PyErr Json :=
  match d with
  | .obj fields =>
    match fields.lookup k with
    | some v => .ok v
    | none => .error (.keyError k)
  | _ => .error .typeError

/-- Mutable data of one game entity, an opaque attribute bag.  Modelled from
the spec: the template player entity lives in `entity_factories`, whose
source is not shown. -/
structure EntityData where
  attrs : List (String × Int)
deriving DecidableEq, Repr

/-- The Python object heap, restricted to entities: a store from addresses
to entity data plus a fresh-allocation frontier. -/
structure Heap where
  mem : Nat → EntityData
  next : Nat

/-- Overwrite the entity at address `a` (a mutation of that object). -/
def Heap.write (h : Heap) (a : Nat) (d : EntityData) : Heap :=
  { h with mem := fun x => if x = a then d else h.mem x }

/-- `copy.deepcopy` on an entity: allocate a fresh address holding a copy of
the data, leaving every existing object untouched. -/
def deepcopy (h : Heap) (a : Nat) : Heap × Nat :=
  ({ mem := fun x => if x = h.next then h.mem a else h.mem x,
     next := h.next + 1 }, h.next)

/-- World-generation parameters passed to the `GameWorld` constructor. -/
structure GameWorldParams where
  max_rooms : Nat
  room_min_size : Nat
  room_max_size : Nat
  map_width : Nat
  map_height : Nat
  max_monsters_per_room : Nat
  max_items_per_room : Nat
deriving DecidableEq, Repr

/-- An RGB color triple.  Modelled from the spec: the `color` module only
supplies fixed constants. -/
def RGB : Type := Nat × Nat × Nat
deriving instance DecidableEq, Repr for RGB

/-- The color constants the visible code reads from the `color` module.
Modelled from the spec: fixed constant colors, values unknown here. -/
structure ColorScheme where
  menu_title : RGB
  menu_text : RGB
  black : RGB
  welcome_text : RGB
deriving DecidableEq, Repr

/-- One line of the session's message log. -/
structure Message where
  text : String
  fg : RGB
deriving DecidableEq, Repr

/-- The session aggregate.  Modelled from the spec: `Engine` is an opaque
aggregate root owning the player entity, the world state and the message
log; only the surface touched by `setup_game.py` is represented.  The
player is an address into the entity heap so that object identity is
observable. -/
structure Engine where
  playerAddr : Nat
  game_world : Option GameWorldParams
  floors : Nat
  message_log : List Message
deriving DecidableEq, Repr

/-- `Engine(player=player)`.  Modelled from the spec: a fresh session owns
the given player, has no world yet, no floor and an empty message log. -/
def Engine.mkNew (playerAddr : Nat) : Engine :=
  { playerAddr := playerAddr, game_world := none, floors := 0, message_log := [] }

/-- `engine.game_world.generate_floor()`.  Modelled from the spec: floor
generation produces one playable map, here counted on the session. -/
def generate_floor (e : Engine) : Engine :=
  { e with floors := e.floors + 1 }

/-- `engine.message_log.add_message(text, fg)`.  Modelled from the spec:
appends one formatted line to the session's message log. -/
def add_message (e : Engine) (text : String) (fg : RGB) : Engine :=
  { e with message_log := e.message_log ++ [⟨text, fg⟩] }

/-- What `pickle.loads` can produce: a session object or something of
another run-time type. -/
inductive PyObject where
  | engine (e : Engine)
  | other (tag : String)
deriving DecidableEq, Repr

/-- The effectful environment: the file system (indexed by a read clock, so
that consecutive reads of one path may differ) and the stdlib codecs.
`none` encodes the exception the corresponding library call raises. -/
structure SysEnv where
  readFileAt : Nat → String → Option (List Nat)
  parseJson : List Nat → Option Json
  lzmaDecompress : List Nat → Option (List Nat)
  pickleLoads : List Nat → Option PyObject

/-- Externally visible steps taken by the bootstrap code. -/
inductive Event where
  | deepcopyPlayer
  | constructGameWorld (params : GameWorldParams)
  | generateFloor
  | updateFov
  | openFile (path : String)
  | addMessage (text : String) (fg : RGB)
deriving DecidableEq, Repr

/-- `load_json(filename)`: open the file and parse it as JSON, raising
`FileNotFoundError` or a JSON decode error.  Returns the value, the
advanced read clock and the file-access trace. -/
def load_json (env : SysEnv) (t : Nat) (filename : String) :
    Except PyErr Json × Nat × List Event :=
  match env.readFileAt t filename with
  | none => (.error (.fileNotFound filename), t + 1, [.openFile filename])
  | some bytes =>
    match env.parseJson bytes with
    | none => (.error .jsonDecodeError, t + 1, [.openFile filename])
    | some j => (.ok j, t + 1, [.openFile filename])

/-- `random.choice(seq)` with oracle draw `r`: an element of a non-empty
list or string, `IndexError` on an empty one, `TypeError` otherwise. -/
def choice (seq : Json) (r : Nat) : Except PyErr Json :=
  match seq with
  | .arr [] => .error .indexError
  | .arr (x :: xs) => .ok ((x :: xs).get ⟨r % (x :: xs).length, Nat.mod_lt _ (Nat.succ_pos _)⟩)
  | .str s =>
    match s.toList with
    | [] => .error .indexError
    | c :: cs => .ok (.str (String.mk [(c :: cs).get ⟨r % (c :: cs).length, Nat.mod_lt _ (Nat.succ_pos _)⟩]))
  | _ => .error .typeError

/-- `get_random_combination(combined_file)`: re-load the JSON resource,
take its `names` and `surnames` entries, choose one element of each and
join them with a single space. -/
def get_random_combination (env : SysEnv) (r1 r2 : Nat) (t : Nat)
    (combined_file : String) : Except PyErr String × Nat × List Event :=
  let lj := load_json env t combined_file
  let res : Except PyErr String :=
    match lj.1 with
    | .error e => .error e
    | .ok data =>
      match getItem data "names" with
      | .error e => .error e
      | .ok names =>
        match getItem data "surnames" with
        | .error e => .error e
        | .ok surnames =>
          match choice names r1 with
          | .error e => .error e
          | .ok random_name =>
            match choice surnames r2 with
            | .error e => .error e
            | .ok random_surname =>
              .ok (pyStr random_name ++ " " ++ pyStr random_surname)
  (res, lj.2)

/-- `load_game(filename)`: read the file, `lzma.decompress` the bytes,
`pickle.loads` the result and assert it is an `Engine`. -/
def load_game (env : SysEnv) (t : Nat) (filename : String) :
    Except PyErr Engine × Nat × List Event :=
  match env.readFileAt t filename with
  | none => (.error (.fileNotFound filename), t + 1, [.openFile filename])
  | some bytes =>
    match env.lzmaDecompress bytes with
    | none => (.error .lzmaError, t + 1, [.openFile filename])
    | some plain =>
      match env.pickleLoads plain with
      | none => (.error .unpickleError, t + 1, [.openFile filename])
      | some (.engine e) => (.ok e, t + 1, [.openFile filename])
      | some (.other _) => (.error .assertionError, t + 1, [.openFile filename])

end LesnyDungeon

namespace LesnyDungeon

/-- The fixed world-generation configuration hard-coded in `new_game`. -/
def newGameParams : GameWorldParams :=
  { max_rooms := 30, room_min_size := 6, room_max_size := 10,
    map_width := 80, map_height := 43,
    max_monsters_per_room := 2, max_items_per_room := 2 }

/-- The name-pool resource path hard-coded in `new_game`. -/
def combinedNamesFile : String := "combined_names_surnames.json"

/-- `new_game()`: deep-copy the template player (at heap address `templ`),
build the `Engine`, attach a `GameWorld` with the fixed parameters,
generate the first floor, recompute the field of view, load the name pool
(once directly, once more inside `get_random_combination`) and append the
welcome message.  Returns the session and the mutated heap, the advanced
read clock and the event trace. -/
def new_game (env : SysEnv) (colors : ColorScheme) (r1 r2 : Nat) (t : Nat)
    (h : Heap) (templ : Nat) :
    Except PyErr (Engine × Heap) × Nat × List Event :=
  let copied := deepcopy h templ
  let h1 := copied.1
  let engine0 := Engine.mkNew copied.2
  let engine1 := { engine0 with game_world := some newGameParams }
  let engine2 := generate_floor engine1
  let preEv : List Event :=
    [.deepcopyPlayer, .constructGameWorld newGameParams, .generateFloor, .updateFov]
  let lj := load_json env t combinedNamesFile
  match lj.1 with
  | .error e => (.error e, lj.2.1, preEv ++ lj.2.2)
  | .ok _data =>
    let grc := get_random_combination env r1 r2 lj.2.1 combinedNamesFile
    match grc.1 with
    | .error e => (.error e, grc.2.1, preEv ++ lj.2.2 ++ grc.2.2)
    | .ok hero_name =>
      let text := "Hello and welcome, " ++ hero_name ++ ", to yet another dungeon!"
      let engine3 := add_message engine2 text colors.welcome_text
      (.ok (engine3, h1), grc.2.1,
        preEv ++ lj.2.2 ++ grc.2.2 ++ [.addMessage text colors.welcome_text])

/-- `str(exc)` for the exceptions the load path can catch (the text the
interpreter attaches; quoting of path names is elided). -/
def pyErrStr : PyErr → String
  | .fileNotFound path => "[Errno 2] No such file or directory: " ++ path
  | .jsonDecodeError => "Expecting value: line 1 column 1 (char 0)"
  | .keyError k => k
  | .indexError => "Cannot choose from an empty sequence"
  | .typeError => "object is not subscriptable"
  | .lzmaError => "Input format not supported by decoder"
  | .unpickleError => "invalid load key"
  | .assertionError => ""

/-- One line of `traceback.print_exc()` output on the diagnostic stream. -/
def traceback_text (e : PyErr) : String :=
  "Traceback (most recent call last): " ++ pyErrStr e

/-- The key symbols `ev_keydown` distinguishes; `other` is any further
`tcod.event.KeySym`. -/
inductive Key where
  | K_q
  | K_ESCAPE
  | K_c
  | K_n
  | other (sym : Nat)
deriving DecidableEq, Repr

/-- Event handlers visible from the menu.  Modelled from the spec:
`input_handlers.MainGameEventHandler` wraps a session, and
`input_handlers.PopupMessage` wraps a parent handler and a message. -/
inductive Handler where
  | mainMenu
  | mainGame (engine : Engine)
  | popup (parent : Handler) (text : String)

/-- The outcome of `MainMenu.ev_keydown`: an abrupt `SystemExit`, a normal
return (of a handler or `None`), or an uncaught exception propagating out
of the method. -/
inductive EvOutcome where
  | systemExit
  | ret (handler : Option Handler)
  | raised (e : PyErr)

/-- The save path hard-coded in `MainMenu.ev_keydown`. -/
def saveFile : String := "savegame.sav"

/-- `MainMenu.ev_keydown(event)`: quit/escape raise `SystemExit`; the
continue key tries `load_game("savegame.sav")`, catching
`FileNotFoundError` with the no-save popup and any other exception with a
traceback on stderr and a failure popup; the new-game key runs `new_game()`
with no exception handling; any other key returns `None`.  The result is
paired with the stderr lines written and the event trace. -/
def ev_keydown (env : SysEnv) (colors : ColorScheme) (r1 r2 : Nat) (t : Nat)
    (h : Heap) (templ : Nat) (key : Key) :
    EvOutcome × List String × List Event :=
  match key with
  | .K_q => (.systemExit, [], [])
  | .K_ESCAPE => (.systemExit, [], [])
  | .K_c =>
    match load_game env t saveFile with
    | (.ok engine, _, ev) => (.ret (some (.mainGame engine)), [], ev)
    | (.error (.fileNotFound _), _, ev) =>
      (.ret (some (.popup .mainMenu "No saved game to load.")), [], ev)
    | (.error exc, _, ev) =>
      (.ret (some (.popup .mainMenu ("Failed to load save:\n" ++ pyErrStr exc))),
        [traceback_text exc], ev)
  | .K_n =>
    match new_game env colors r1 r2 t h templ with
    | (.ok (engine, _), _, ev) => (.ret (some (.mainGame engine)), [], ev)
    | (.error e, _, ev) => (.raised e, [], ev)
  | .other _ => (.ret none, [], [])

/-- The menu background image: an opaque pixel grid (alpha already
stripped). -/
structure Image where
  pixels : List (List RGB)
deriving DecidableEq, Repr

/-- The render target: a cell grid of some width and height whose current
contents are arbitrary. -/
structure Console where
  width : Nat
  height : Nat
  cells : Nat → Nat → RGB

/-- Ambient game state an event handler could in principle consult; the
menu renderer must not. -/
structure GameState where
  session : Option Engine
  turn : Nat

/-- Text alignment constants of the console library. -/
inductive Alignment where
  | left
  | center
  | right
deriving DecidableEq, Repr

/-- Background blend modes of the console library: the default opaque set,
or `BKGND_ALPHA(a)`. -/
inductive BlendMode where
  | set
  | alpha (a : Nat)
deriving DecidableEq, Repr

/-- One drawing command issued to the console. -/
inductive DrawCmd where
  | semigraphics (img : Image) (x y : Int)
  | print (x y : Int) (text : String) (fg : RGB) (bg : Option RGB)
      (alignment : Alignment) (bg_blend : BlendMode)
deriving DecidableEq, Repr

/-- Python `str.ljust(width)`: pad on the right with spaces to `width`. -/
def ljust (s : String) (width : Nat) : String :=
  s ++ String.mk (List.replicate (width - s.length) ' ')

/-- The three menu option strings, in order. -/
def menuOptions : List String :=
  ["[N] Play a new game", "[C] Continue last game", "[Q] Quit"]

/-- `MainMenu.on_render(console)`: draw the background image, print the
centered title and subtitle, then the three menu options left-justified to
width 24 and centered with a semi-transparent black background.  The
ambient game state `st` is a parameter so that its non-use is provable. -/
def on_render (img : Image) (colors : ColorScheme) (_st : GameState)
    (console : Console) : List DrawCmd :=
  let w : Int := console.width
  let h : Int := console.height
  let menu_width : Nat := 24
  [DrawCmd.semigraphics img 0 0,
    DrawCmd.print (w / 2) (h / 2 - 4) "LESNY DUNGEON" colors.menu_title none
      .center .set,
    DrawCmd.print (w / 2) (h - 2) "Lesny Dungeon" colors.menu_title none
      .center .set]
  ++ menuOptions.enum.map fun p =>
      DrawCmd.print (w / 2) (h / 2 - 2 + p.1) (ljust p.2 menu_width)
        colors.menu_text (some colors.black) .center (.alpha 64)

/-! ## Concrete test fixtures used by the witness theorems. -/

/-- A name pool with one first name and one surname. -/
def demoJson : Json :=
  .obj [("names", .arr [.str "Ada"]), ("surnames", .arr [.str "Lovelace"])]

/-- An environment where every file read succeeds, JSON parses to the demo
pool, decompression is the identity and unpickling yields a session. -/
def demoEnv : SysEnv :=
  { readFileAt := fun _ _ => some [0],
    parseJson := fun _ => some demoJson,
    lzmaDecompress := fun bytes => some bytes,
    pickleLoads := fun _ => some (.engine (Engine.mkNew 0)) }

/-- An environment with an empty file system: every open raises
`FileNotFoundError`. -/
def envMissing : SysEnv :=
  { readFileAt := fun _ _ => none,
    parseJson := fun _ => none,
    lzmaDecompress := fun _ => none,
    pickleLoads := fun _ => none }

/-- An environment whose save file exists but holds bytes that fail to
decompress. -/
def envCorrupt : SysEnv :=
  { readFileAt := fun _ _ => some [1],
    parseJson := fun _ => none,
    lzmaDecompress := fun _ => none,
    pickleLoads := fun _ => none }

/-- A heap holding just the template player entity at address 0. -/
def demoHeap : Heap :=
  { mem := fun _ => ⟨[("hp", 30)]⟩, next := 1 }

/-- A fixed color scheme. -/
def demoColors : ColorScheme :=
  { menu_title := (255, 255, 63), menu_text := (255, 255, 255),
    black := (0, 0, 0), welcome_text := (32, 160, 255) }

/-- A 1×1 background image. -/
def demoImage : Image := ⟨[[(10, 20, 30)]]⟩

/-- A variant of the demo environment whose file system serves different
bytes for the read at clock 0, and is otherwise identical. -/
def demoEnv2 : SysEnv :=
  { readFileAt := fun u _ => if u = 0 then some [7] else some [0],
    parseJson := fun _ => some demoJson,
    lzmaDecompress := fun bytes => some bytes,
    pickleLoads := fun _ => some (.engine (Engine.mkNew 0)) }

/-- The session `new_game` produces in the demo environment. -/
def demoNewEngine : Engine :=
  { playerAddr := 1, game_world := some newGameParams, floors := 1,
    message_log := [⟨"Hello and welcome, Ada Lovelace, to yet another dungeon!",
      demoColors.welcome_text⟩] }

end LesnyDungeon

namespace LesnyDungeon

/-! ## Helper lemmas shared by several claim theorems. -/

/-- `choice` on a non-empty JSON array succeeds and returns one of its
elements. -/
theorem choice_arr_mem (xs : List Json) (r : Nat) (hx : xs ≠ []) :
    ∃ j, choice (.arr xs) r = .ok j ∧ j ∈ xs := by
  cases xs with
  | nil => exact absurd rfl hx
  | cons x xs =>
    exact ⟨_, rfl, List.get_mem _ _ _⟩

/-! ## Claim theorems -/

/-- C1: for every name-pool resource whose `names` and `surnames` arrays
are both non-empty string arrays, `get_random_combination` returns exactly
one element of `names`, a single space, and one element of `surnames`,
each chosen element belonging to its source array. -/
theorem C1_random_combination_from_pools
    (env : SysEnv) (r1 r2 t : Nat) (f : String)
    (data : Json) (t1 : Nat) (ev1 : List Event)
    (names surnames : List String)
    (hload : load_json env t f = (.ok data, t1, ev1))
    (hnames : getItem data "names" = .ok (.arr (names.map Json.str)))
    (hsurnames : getItem data "surnames" = .ok (.arr (surnames.map Json.str)))
    (hn : names ≠ []) (hs : surnames ≠ []) :
    ∃ n s, n ∈ names ∧ s ∈ surnames ∧
      (get_random_combination env r1 r2 t f).1 = .ok (n ++ " " ++ s) := by
  obtain ⟨jn, hjn, hjnmem⟩ := choice_arr_mem (names.map Json.str) r1 (by simpa using hn)
  obtain ⟨js, hjs, hjsmem⟩ := choice_arr_mem (surnames.map Json.str) r2 (by simpa using hs)
  obtain ⟨n, hnmem, rfl⟩ := List.mem_map.mp hjnmem
  obtain ⟨s, hsmem, rfl⟩ := List.mem_map.mp hjsmem
  refine ⟨n, s, hnmem, hsmem, ?_⟩
  simp [get_random_combination, hload, hnames, hsurnames, hjn, hjs, pyStr]

/-- Witness for C1 at the demo pool `{"names": ["Ada"], "surnames":
["Lovelace"]}`. -/
theorem C1_witness :
    ∃ n s, n ∈ ["Ada"] ∧ s ∈ ["Lovelace"] ∧
      (get_random_combination demoEnv 0 0 0 combinedNamesFile).1 = .ok (n ++ " " ++ s) :=
  C1_random_combination_from_pools demoEnv 0 0 0 combinedNamesFile demoJson 1
    [.openFile combinedNamesFile] ["Ada"] ["Lovelace"] rfl rfl rfl
    (List.cons_ne_nil _ _) (List.cons_ne_nil _ _)

/-- C2: `load_game` returns an `Engine` on success, and fails exactly on a
missing file, a decompression failure, a deserialization failure, or a
type-mismatch assertion failure — with no other failure or recovery
path. -/
theorem C2_load_game_cases (env : SysEnv) (t : Nat) (f : String) :
    ((∃ e, (load_game env t f).1 = .ok e) ∨
        (load_game env t f).1 = .error (.fileNotFound f) ∨
        (load_game env t f).1 = .error .lzmaError ∨
        (load_game env t f).1 = .error .unpickleError ∨
        (load_game env t f).1 = .error .assertionError)
    ∧ ((load_game env t f).1 = .error (.fileNotFound f) ↔
        env.readFileAt t f = none)
    ∧ ((load_game env t f).1 = .error .lzmaError ↔
        ∃ b, env.readFileAt t f = some b ∧ env.lzmaDecompress b = none)
    ∧ ((load_game env t f).1 = .error .unpickleError ↔
        ∃ b p, env.readFileAt t f = some b ∧ env.lzmaDecompress b = some p ∧
          env.pickleLoads p = none)
    ∧ ((load_game env t f).1 = .error .assertionError ↔
        ∃ b p s, env.readFileAt t f = some b ∧ env.lzmaDecompress b = some p ∧
          env.pickleLoads p = some (.other s))
    ∧ (∀ e, (load_game env t f).1 = .ok e ↔
        ∃ b p, env.readFileAt t f = some b ∧ env.lzmaDecompress b = some p ∧
          env.pickleLoads p = some (.engine e)) := by
  cases hb : env.readFileAt t f with
  | none => simp [load_game, hb]
  | some b =>
    cases hp : env.lzmaDecompress b with
    | none => simp [load_game, hb, hp]
    | some p =>
      cases ho : env.pickleLoads p with
      | none => simp [load_game, hb, hp, ho]
      | some o =>
        cases o with
        | engine e => simp [load_game, hb, hp, ho]
        | other s => simp [load_game, hb, hp, ho]

/-- Witness for C2: in the demo environment the load succeeds with the
demo session. -/
theorem C2_witness :
    (load_game demoEnv 0 saveFile).1 = .ok (Engine.mkNew 0) :=
  ((C2_load_game_cases demoEnv 0 saveFile).2.2.2.2.2 (Engine.mkNew 0)).mpr
    ⟨[0], [0], rfl, rfl, rfl⟩

/-- The only errors `load_game` can produce are the four of its taxonomy. -/
theorem load_game_err_shape (env : SysEnv) (t : Nat) (f : String)
    (exc : PyErr) (t2 : Nat) (ev2 : List Event)
    (hload : load_game env t f = (.error exc, t2, ev2)) :
    exc = .fileNotFound f ∨ exc = .lzmaError ∨ exc = .unpickleError ∨
      exc = .assertionError := by
  unfold load_game at hload
  split at hload
  · simp only [Prod.mk.injEq, Except.error.injEq] at hload
    exact .inl hload.1.symm
  · split at hload
    · simp only [Prod.mk.injEq, Except.error.injEq] at hload
      exact .inr (.inl hload.1.symm)
    · split at hload
      · simp only [Prod.mk.injEq, Except.error.injEq] at hload
        exact .inr (.inr (.inl hload.1.symm))
      · simp at hload
      · simp only [Prod.mk.injEq, Except.error.injEq] at hload
        exact .inr (.inr (.inr hload.1.symm))

/-- C3: on the continue key, `ev_keydown` loads from the hardcoded save
path; on success it returns the in-game handler on the loaded session; on
a missing file it returns a popup over the menu reading exactly "No saved
game to load." with nothing on stderr; on any other load failure it writes
a traceback to stderr and returns a popup whose message carries the
failure description and is never the file-not-found message. -/
theorem C3_continue_key (env : SysEnv) (colors : ColorScheme) (r1 r2 t : Nat)
    (h : Heap) (templ : Nat) :
    (∀ e t2 ev2, load_game env t saveFile = (.ok e, t2, ev2) →
      ev_keydown env colors r1 r2 t h templ .K_c =
        (.ret (some (.mainGame e)), [], ev2))
    ∧ (∀ p t2 ev2, load_game env t saveFile = (.error (.fileNotFound p), t2, ev2) →
      ev_keydown env colors r1 r2 t h templ .K_c =
        (.ret (some (.popup .mainMenu "No saved game to load.")), [], ev2))
    ∧ (∀ exc t2 ev2, load_game env t saveFile = (.error exc, t2, ev2) →
      (∀ p, exc ≠ .fileNotFound p) →
      ev_keydown env colors r1 r2 t h templ .K_c =
        (.ret (some (.popup .mainMenu ("Failed to load save:\n" ++ pyErrStr exc))),
          [traceback_text exc], ev2)
      ∧ "Failed to load save:\n" ++ pyErrStr exc ≠ "No saved game to load.") := by
  refine ⟨?_, ?_, ?_⟩
  · intro e t2 ev2 hload
    simp [ev_keydown, hload]
  · intro p t2 ev2 hload
    simp [ev_keydown, hload]
  · intro exc t2 ev2 hload hne
    rcases load_game_err_shape env t saveFile exc t2 ev2 hload with hfnf | rfl | rfl | rfl
    · exact absurd hfnf (hne saveFile)
    · exact ⟨by simp [ev_keydown, hload], by decide⟩
    · exact ⟨by simp [ev_keydown, hload], by decide⟩
    · exact ⟨by simp [ev_keydown, hload], by decide⟩

/-- Witness for C3: the three load outcomes at concrete environments. -/
theorem C3_witness :
    (ev_keydown demoEnv demoColors 0 0 0 demoHeap 0 .K_c =
      (.ret (some (.mainGame (Engine.mkNew 0))), [], [.openFile saveFile]))
    ∧ (ev_keydown envMissing demoColors 0 0 0 demoHeap 0 .K_c =
      (.ret (some (.popup .mainMenu "No saved game to load.")), [], [.openFile saveFile]))
    ∧ (ev_keydown envCorrupt demoColors 0 0 0 demoHeap 0 .K_c =
      (.ret (some (.popup .mainMenu ("Failed to load save:\n" ++ pyErrStr .lzmaError))),
        [traceback_text .lzmaError], [.openFile saveFile])) :=
  ⟨(C3_continue_key demoEnv demoColors 0 0 0 demoHeap 0).1
      (Engine.mkNew 0) 1 [.openFile saveFile] rfl,
   (C3_continue_key envMissing demoColors 0 0 0 demoHeap 0).2.1
      saveFile 1 [.openFile saveFile] rfl,
   ((C3_continue_key envCorrupt demoColors 0 0 0 demoHeap 0).2.2
      .lzmaError 1 [.openFile saveFile] rfl (fun _ hp => PyErr.noConfusion hp)).1⟩

/-- `load_json` always advances the read clock by one and records exactly
one file access. -/
theorem load_json_rest (env : SysEnv) (t : Nat) (f : String) :
    (load_json env t f).2 = (t + 1, [.openFile f]) := by
  cases hb : env.readFileAt t f with
  | none => simp [load_json, hb]
  | some b =>
    cases hp : env.parseJson b with
    | none => simp [load_json, hb, hp]
    | some j => simp [load_json, hb, hp]

/-- `get_random_combination` performs exactly one file access, at its
entry clock. -/
theorem get_random_combination_rest (env : SysEnv) (r1 r2 t : Nat) (f : String) :
    (get_random_combination env r1 r2 t f).2 = (t + 1, [.openFile f]) :=
  load_json_rest env t f

/-- On success, `new_game` returns the session built by the five bootstrap
steps: the player is the fresh deep copy, the world has the fixed
parameters, exactly one floor was generated, the log holds exactly the
welcome line for the generated name, and the event trace lists the steps
in source order with the two name-pool file accesses. -/
theorem new_game_ok (env : SysEnv) (colors : ColorScheme) (r1 r2 t : Nat)
    (h : Heap) (templ : Nat) (eng : Engine) (hh : Heap)
    (hok : (new_game env colors r1 r2 t h templ).1 = .ok (eng, hh)) :
    eng.playerAddr = h.next ∧ hh = (deepcopy h templ).1 ∧
    eng.game_world = some newGameParams ∧ eng.floors = 1 ∧
    ∃ name,
      (get_random_combination env r1 r2 (t + 1) combinedNamesFile).1 = .ok name ∧
      eng.message_log =
        [⟨"Hello and welcome, " ++ name ++ ", to yet another dungeon!",
          colors.welcome_text⟩] ∧
      (new_game env colors r1 r2 t h templ).2.2 =
        [.deepcopyPlayer, .constructGameWorld newGameParams, .generateFloor,
         .updateFov, .openFile combinedNamesFile, .openFile combinedNamesFile,
         .addMessage ("Hello and welcome, " ++ name ++ ", to yet another dungeon!")
           colors.welcome_text] := by
  unfold new_game at hok ⊢
  simp only [] at hok ⊢
  rw [load_json_rest env t combinedNamesFile] at hok ⊢
  cases hlj : (load_json env t combinedNamesFile).1 with
  | error err => simp [hlj] at hok
  | ok data =>
    simp only [hlj] at hok ⊢
    rw [get_random_combination_rest env r1 r2 (t + 1) combinedNamesFile] at hok ⊢
    cases hgrc : (get_random_combination env r1 r2 (t + 1) combinedNamesFile).1 with
    | error err => simp [hgrc] at hok
    | ok hero_name =>
      simp only [hgrc, Except.ok.injEq, Prod.mk.injEq] at hok
      obtain ⟨heng, hheap⟩ := hok
      subst heng; subst hheap
      refine ⟨?_, ?_, ?_, ?_, hero_name, rfl, ?_, ?_⟩ <;>
        simp [deepcopy, Engine.mkNew, generate_floor, add_message, hgrc]

/-- C4: every successful `new_game` call performs, in order, the player
deep copy, the world-generator construction, exactly one floor generation,
exactly one field-of-view recompute and exactly one append of the welcome
message carrying the generated name; the returned session has exactly one
generated floor and its message log is the single welcome line. -/
theorem C4_new_game_steps (env : SysEnv) (colors : ColorScheme) (r1 r2 t : Nat)
    (h : Heap) (templ : Nat) (eng : Engine) (hh : Heap) (name : String)
    (hok : (new_game env colors r1 r2 t h templ).1 = .ok (eng, hh))
    (hname : (get_random_combination env r1 r2 (t + 1) combinedNamesFile).1 =
      .ok name) :
    (new_game env colors r1 r2 t h templ).2.2 =
      [.deepcopyPlayer, .constructGameWorld newGameParams, .generateFloor,
       .updateFov, .openFile combinedNamesFile, .openFile combinedNamesFile,
       .addMessage ("Hello and welcome, " ++ name ++ ", to yet another dungeon!")
         colors.welcome_text]
    ∧ eng.message_log =
        [⟨"Hello and welcome, " ++ name ++ ", to yet another dungeon!",
          colors.welcome_text⟩]
    ∧ eng.floors = 1 := by
  obtain ⟨-, -, -, hfl, name', hname', hlog, htr⟩ :=
    new_game_ok env colors r1 r2 t h templ eng hh hok
  rw [hname] at hname'
  injection hname' with hn
  subst hn
  exact ⟨htr, hlog, hfl⟩

/-- Witness for C4 in the demo environment: the generated name is
"Ada Lovelace" and the bootstrap trace is exactly the seven steps. -/
theorem C4_witness :
    (new_game demoEnv demoColors 0 0 0 demoHeap 0).2.2 =
      [.deepcopyPlayer, .constructGameWorld newGameParams, .generateFloor,
       .updateFov, .openFile combinedNamesFile, .openFile combinedNamesFile,
       .addMessage ("Hello and welcome, " ++ "Ada Lovelace" ++ ", to yet another dungeon!")
         demoColors.welcome_text]
    ∧ demoNewEngine.message_log =
        [⟨"Hello and welcome, " ++ "Ada Lovelace" ++ ", to yet another dungeon!",
          demoColors.welcome_text⟩]
    ∧ demoNewEngine.floors = 1 :=
  C4_new_game_steps demoEnv demoColors 0 0 0 demoHeap 0 demoNewEngine
    ((deepcopy demoHeap 0).1) "Ada Lovelace" rfl rfl

/-- C5: the session's player entity is a fresh heap object distinct from
the template player: it starts as a copy of the template's data, and a
write through either address leaves the data behind the other address
unchanged. -/
theorem C5_player_distinct (env : SysEnv) (colors : ColorScheme) (r1 r2 t : Nat)
    (h : Heap) (templ : Nat) (eng : Engine) (hh : Heap)
    (hvalid : templ < h.next)
    (hok : (new_game env colors r1 r2 t h templ).1 = .ok (eng, hh)) :
    eng.playerAddr ≠ templ
    ∧ hh.mem eng.playerAddr = h.mem templ
    ∧ (∀ d, (hh.write eng.playerAddr d).mem templ = hh.mem templ)
    ∧ (∀ d, (hh.write templ d).mem eng.playerAddr = hh.mem eng.playerAddr) := by
  obtain ⟨hpa, hhh, -, -, -⟩ := new_game_ok env colors r1 r2 t h templ eng hh hok
  subst hhh
  rw [hpa]
  have hne : h.next ≠ templ := (Nat.ne_of_lt hvalid).symm
  refine ⟨hne, ?_, ?_, ?_⟩
  · simp [deepcopy]
  · intro d
    simp [deepcopy, Heap.write, hne.symm]
  · intro d
    simp [deepcopy, Heap.write, hne]

/-- Witness for C5: in the demo heap the copy lives at address 1, the
template at address 0, and a write to either does not change the other. -/
theorem C5_witness :
    demoNewEngine.playerAddr ≠ 0
    ∧ (deepcopy demoHeap 0).1.mem demoNewEngine.playerAddr = demoHeap.mem 0
    ∧ ((deepcopy demoHeap 0).1.write demoNewEngine.playerAddr ⟨[("hp", 1)]⟩).mem 0 =
        (deepcopy demoHeap 0).1.mem 0
    ∧ ((deepcopy demoHeap 0).1.write 0 ⟨[("hp", 1)]⟩).mem demoNewEngine.playerAddr =
        (deepcopy demoHeap 0).1.mem demoNewEngine.playerAddr := by
  obtain ⟨h1, h2, h3, h4⟩ := C5_player_distinct demoEnv demoColors 0 0 0 demoHeap 0
    demoNewEngine ((deepcopy demoHeap 0).1) (by decide) rfl
  exact ⟨h1, h2, h3 _, h4 _⟩

/-- C6: every `new_game` call constructs the world generator exactly once,
with the same fixed parameter record — map 80×43, at most 30 rooms of size
6 to 10, at most 2 monsters and 2 items per room — independent of every
input and of the environment. -/
theorem C6_fixed_world_params (env : SysEnv) (colors : ColorScheme)
    (r1 r2 t : Nat) (h : Heap) (templ : Nat) :
    ((new_game env colors r1 r2 t h templ).2.2.filterMap fun ev =>
        match ev with
        | .constructGameWorld p => some p
        | _ => none) =
      [{ max_rooms := 30, room_min_size := 6, room_max_size := 10,
         map_width := 80, map_height := 43,
         max_monsters_per_room := 2, max_items_per_room := 2 }] := by
  unfold new_game
  simp only []
  rw [load_json_rest env t combinedNamesFile]
  cases hlj : (load_json env t combinedNamesFile).1 with
  | error err => rfl
  | ok data =>
    simp only []
    rw [get_random_combination_rest env r1 r2 (t + 1) combinedNamesFile]
    cases hgrc : (get_random_combination env r1 r2 (t + 1) combinedNamesFile).1 with
    | error err => rfl
    | ok hero_name => rfl

/-- C7: the quit key and the escape key terminate the process immediately
with an exit signal — no handler is returned, nothing is written to
stderr, and no other step is taken. -/
theorem C7_quit_exits (env : SysEnv) (colors : ColorScheme) (r1 r2 t : Nat)
    (h : Heap) (templ : Nat) :
    ev_keydown env colors r1 r2 t h templ .K_q = (.systemExit, [], [])
    ∧ ev_keydown env colors r1 r2 t h templ .K_ESCAPE = (.systemExit, [], []) :=
  ⟨rfl, rfl⟩

/-- C8: the new-game key invokes `new_game` synchronously and returns the
in-game handler wrapping the produced session; an exception raised during
session creation is not caught and propagates out of `ev_keydown`. -/
theorem C8_new_key (env : SysEnv) (colors : ColorScheme) (r1 r2 t : Nat)
    (h : Heap) (templ : Nat) :
    (∀ eng hh t2 ev,
      new_game env colors r1 r2 t h templ = (.ok (eng, hh), t2, ev) →
      ev_keydown env colors r1 r2 t h templ .K_n =
        (.ret (some (.mainGame eng)), [], ev))
    ∧ (∀ err t2 ev,
      new_game env colors r1 r2 t h templ = (.error err, t2, ev) →
      ev_keydown env colors r1 r2 t h templ .K_n = (.raised err, [], ev)) := by
  constructor
  · intro eng hh t2 ev hng
    simp [ev_keydown, hng]
  · intro err t2 ev hng
    simp [ev_keydown, hng]

/-- The event trace of a successful demo `new_game` run. -/
def demoTrace : List Event :=
  [.deepcopyPlayer, .constructGameWorld newGameParams, .generateFloor, .updateFov,
   .openFile combinedNamesFile, .openFile combinedNamesFile,
   .addMessage "Hello and welcome, Ada Lovelace, to yet another dungeon!"
     demoColors.welcome_text]

/-- Witness for C8: the success path in the demo environment and the
propagated `FileNotFoundError` when the name pool is missing. -/
theorem C8_witness :
    ev_keydown demoEnv demoColors 0 0 0 demoHeap 0 .K_n =
      (.ret (some (.mainGame demoNewEngine)), [], demoTrace)
    ∧ ev_keydown envMissing demoColors 0 0 0 demoHeap 0 .K_n =
      (.raised (.fileNotFound combinedNamesFile), [],
        [.deepcopyPlayer, .constructGameWorld newGameParams, .generateFloor,
         .updateFov, .openFile combinedNamesFile]) :=
  ⟨(C8_new_key demoEnv demoColors 0 0 0 demoHeap 0).1 demoNewEngine
      ((deepcopy demoHeap 0).1) 2 demoTrace rfl,
   (C8_new_key envMissing demoColors 0 0 0 demoHeap 0).2
      (.fileNotFound combinedNamesFile) 1
      [.deepcopyPlayer, .constructGameWorld newGameParams, .generateFloor,
       .updateFov, .openFile combinedNamesFile] rfl⟩

/-- C9: the menu renderer's output is a function only of the console's
dimensions and the fixed image, strings and colors: two invocations on
equally-sized consoles draw the same command list, whatever the ambient
game-session state or the consoles' prior contents. -/
theorem C9_render_stateless (img : Image) (colors : ColorScheme)
    (s1 s2 : GameState) (c1 c2 : Console)
    (hw : c1.width = c2.width) (hht : c1.height = c2.height) :
    on_render img colors s1 c1 = on_render img colors s2 c2 := by
  unfold on_render
  rw [hw, hht]

/-- Witness for C9: consoles of equal size with different contents, one
rendered with no session and one mid-game, draw identically. -/
theorem C9_witness :
    on_render demoImage demoColors ⟨none, 0⟩ ⟨80, 50, fun _ _ => (0, 0, 0)⟩ =
      on_render demoImage demoColors ⟨some demoNewEngine, 7⟩
        ⟨80, 50, fun _ _ => (9, 9, 9)⟩ :=
  C9_render_stateless demoImage demoColors _ _ _ _ rfl rfl

/-- C10: `new_game` opens and parses the name-pool file twice — once
directly, binding a result that is never used, and once more inside
`get_random_combination`.  Provided the first read succeeds, the whole
result is a function of the second read alone; the first read contributes
only the extra file access and, when it fails, the propagated error. -/
theorem C10_pool_read_twice (env env2 : SysEnv) (colors : ColorScheme)
    (r1 r2 t : Nat) (h : Heap) (templ : Nat)
    (hsame2 : env.readFileAt (t + 1) = env2.readFileAt (t + 1))
    (hsamep : env.parseJson = env2.parseJson)
    (hfst : ∃ b j, env.readFileAt t combinedNamesFile = some b ∧
      env.parseJson b = some j)
    (hfst2 : ∃ b j, env2.readFileAt t combinedNamesFile = some b ∧
      env2.parseJson b = some j) :
    new_game env colors r1 r2 t h templ = new_game env2 colors r1 r2 t h templ
    ∧ ((new_game env colors r1 r2 t h templ).2.2.count
        (.openFile combinedNamesFile)) = 2
    ∧ (∀ envX : SysEnv, envX.readFileAt t combinedNamesFile = none →
        (new_game envX colors r1 r2 t h templ).1 =
          .error (.fileNotFound combinedNamesFile)
        ∧ ((new_game envX colors r1 r2 t h templ).2.2.count
            (.openFile combinedNamesFile)) = 1) := by
  obtain ⟨b, j, hb, hj⟩ := hfst
  obtain ⟨b2, j2, hb2, hj2⟩ := hfst2
  have hlj : load_json env t combinedNamesFile =
      (.ok j, t + 1, [.openFile combinedNamesFile]) := by
    simp [load_json, hb, hj]
  have hlj2 : load_json env2 t combinedNamesFile =
      (.ok j2, t + 1, [.openFile combinedNamesFile]) := by
    simp [load_json, hb2, hj2]
  have hgrc_eq : get_random_combination env r1 r2 (t + 1) combinedNamesFile =
      get_random_combination env2 r1 r2 (t + 1) combinedNamesFile := by
    unfold get_random_combination load_json
    rw [hsame2, hsamep]
  refine ⟨?_, ?_, ?_⟩
  · unfold new_game
    simp only []
    rw [hlj, hlj2, hgrc_eq]
  · unfold new_game
    simp only []
    rw [hlj]
    simp only []
    rw [get_random_combination_rest env r1 r2 (t + 1) combinedNamesFile]
    cases hg : (get_random_combination env r1 r2 (t + 1) combinedNamesFile).1 with
    | error e => rfl
    | ok name => rfl
  · intro envX hX
    have hljX : load_json envX t combinedNamesFile =
        (.error (.fileNotFound combinedNamesFile), t + 1,
          [.openFile combinedNamesFile]) := by
      simp [load_json, hX]
    constructor
    · unfold new_game
      simp only []
      rw [hljX]
    · unfold new_game
      simp only []
      rw [hljX]
      rfl

/-- Witness for C10: two environments that differ only in the bytes served
to the first read produce identical sessions; with the pool file missing,
`new_game` fails with file-not-found after exactly one file access. -/
theorem C10_witness :
    new_game demoEnv demoColors 0 0 0 demoHeap 0 =
      new_game demoEnv2 demoColors 0 0 0 demoHeap 0
    ∧ ((new_game demoEnv demoColors 0 0 0 demoHeap 0).2.2.count
        (.openFile combinedNamesFile)) = 2
    ∧ (new_game envMissing demoColors 0 0 0 demoHeap 0).1 =
        .error (.fileNotFound combinedNamesFile)
    ∧ ((new_game envMissing demoColors 0 0 0 demoHeap 0).2.2.count
        (.openFile combinedNamesFile)) = 1 := by
  obtain ⟨he, hc, hx⟩ := C10_pool_read_twice demoEnv demoEnv2 demoColors 0 0 0
    demoHeap 0 rfl rfl ⟨[0], demoJson, rfl, rfl⟩ ⟨[7], demoJson, rfl, rfl⟩
  obtain ⟨hx1, hx2⟩ := hx envMissing rfl
  exact ⟨he, hc, hx1, hx2⟩

end LesnyDungeon
